import Mathlib

/-!
Verification development for the XPBD rigid-body engine (`src/physics/engine.py`).

The engine glue (`_physics_step_static`, `_n_step_simulation`,
`TensorPhysicsEngine`) is embedded directly from `src/physics/engine.py`.
The pipeline stages it calls (`predict_state`, `uniform_spatial_hash`,
`generate_contacts`, `solve_constraints`, `reconcile_velocities`,
`solve_velocities`) live in `physics/xpbd/*` modules that are not part of the
source tree; they are modelled from the specification (sections 4.1-4.6),
with their call signatures taken from the call sites in `engine.py`.

Numbers: the float32 tensor arithmetic is embedded as exact rational
arithmetic.  Square roots (vector norms, quaternion renormalisation, the
geometric-mean friction combination) are modelled by the exact rational
square root `ratSqrt`, which agrees with the real square root on perfect
squares; every concrete configuration evaluated below is chosen so that all
square roots taken are of perfect squares of rationals.
-/

/-- Vector of three rational coordinates, embedding a float32 3-vector. -/
structure Vec3 where
  x : ℚ
  y : ℚ
  z : ℚ
  deriving DecidableEq, Repr

/-- Quaternion with rational coefficients, embedding a float32 quaternion
`(w, x, y, z)`. -/
structure Quat where
  w : ℚ
  x : ℚ
  y : ℚ
  z : ℚ
  deriving DecidableEq, Repr

def Vec3.zero : Vec3 := ⟨0, 0, 0⟩

def Vec3.add (a b : Vec3) : Vec3 := ⟨a.x + b.x, a.y + b.y, a.z + b.z⟩

def Vec3.sub (a b : Vec3) : Vec3 := ⟨a.x - b.x, a.y - b.y, a.z - b.z⟩

def Vec3.smul (c : ℚ) (a : Vec3) : Vec3 := ⟨c * a.x, c * a.y, c * a.z⟩

def Vec3.dot (a b : Vec3) : ℚ := a.x * b.x + a.y * b.y + a.z * b.z

def Vec3.cross (a b : Vec3) : Vec3 :=
  ⟨a.y * b.z - a.z * b.y, a.z * b.x - a.x * b.z, a.x * b.y - a.y * b.x⟩

/-- Componentwise product (used to apply a diagonal inverse-inertia tensor). -/
def Vec3.compMul (a b : Vec3) : Vec3 := ⟨a.x * b.x, a.y * b.y, a.z * b.z⟩

/-- Componentwise square. -/
def Vec3.compSq (a : Vec3) : Vec3 := ⟨a.x * a.x, a.y * a.y, a.z * a.z⟩

def Vec3.normSq (a : Vec3) : ℚ := Vec3.dot a a

/-- Exact rational square root: agrees with the real square root whenever the
argument is a perfect square of a rational (the only case exercised by the
concrete configurations in this file); embeds the float `sqrt`. -/
def ratSqrt (q : ℚ) : ℚ := mkRat (Int.sqrt q.num) (Nat.sqrt q.den)

def Quat.addQ (a b : Quat) : Quat := ⟨a.w + b.w, a.x + b.x, a.y + b.y, a.z + b.z⟩

def Quat.subQ (a b : Quat) : Quat := ⟨a.w - b.w, a.x - b.x, a.y - b.y, a.z - b.z⟩

def Quat.smulQ (c : ℚ) (a : Quat) : Quat := ⟨c * a.w, c * a.x, c * a.y, c * a.z⟩

def Quat.mul (a b : Quat) : Quat :=
  ⟨a.w * b.w - a.x * b.x - a.y * b.y - a.z * b.z,
   a.w * b.x + a.x * b.w + a.y * b.z - a.z * b.y,
   a.w * b.y - a.x * b.z + a.y * b.w + a.z * b.x,
   a.w * b.z + a.x * b.y - a.y * b.x + a.z * b.w⟩

def Quat.conj (a : Quat) : Quat := ⟨a.w, -a.x, -a.y, -a.z⟩

/-- Quaternion with zero real part built from an angular-velocity vector. -/
def Quat.ofVec (v : Vec3) : Quat := ⟨0, v.x, v.y, v.z⟩

def Quat.normSq (a : Quat) : ℚ := a.w * a.w + a.x * a.x + a.y * a.y + a.z * a.z

/-- Renormalisation of a quaternion (modelled with `ratSqrt`). -/
def Quat.normalize (a : Quat) : Quat :=
  let n := ratSqrt a.normSq
  ⟨a.w / n, a.x / n, a.y / n, a.z / n⟩

/-- Shape-kind enumeration value for spheres.  Modelled from the spec: the
shape kind is an enumerated integer ("SPHERE, BOX, ... extensible"); the
concrete numbering is not in the source tree, so SPHERE is assigned 0. -/
def SPHERE : ℕ := 0

/-- Contact record.  Modelled from the spec (section 3, "Contact"): body index
pair, world contact point, unit normal pointing from `b` to `a`, signed
penetration depth (positive = overlapping), combined friction coefficient and
compliance.  The accumulated normal impulse is kept separately by the
position solver (reset to 0 at the start of every step). -/
structure Contact where
  ia : ℕ
  ib : ℕ
  point : Vec3
  normal : Vec3
  depth : ℚ
  friction : ℚ
  compliance : ℚ
  deriving DecidableEq, Repr

/-- Modelled from the spec (section 4.1, Predictor); the module
`physics/xpbd/integration.py` is not in the source tree.  For each movable
body (inverse mass > 0): `v' = v + g*dt`, angular velocity unchanged,
`x' = x + v'*dt`, and the orientation is advanced by the angular-velocity
quaternion derivative over `dt` and renormalised (when the angular velocity
is zero the derivative vanishes and the orientation is left untouched).
Immovable bodies pass through unchanged.  Bodies are addressed by index;
the result is the 4-tuple (x_pred, q_pred, v_new, omega_new). -/
def predict_state (x : ℕ → Vec3) (q : ℕ → Quat) (v ω : ℕ → Vec3)
    (inv_mass : ℕ → ℚ) (_inv_inertia : ℕ → Vec3) (gravity : Vec3) (dt : ℚ) :
    (ℕ → Vec3) × (ℕ → Quat) × (ℕ → Vec3) × (ℕ → Vec3) :=
  ( fun i => if 0 < inv_mass i then
      Vec3.add (x i) (Vec3.smul dt (Vec3.add (v i) (Vec3.smul dt gravity)))
    else x i
  , fun i => if 0 < inv_mass i then
      (if ω i = Vec3.zero then q i else
        Quat.normalize (Quat.addQ (q i)
          (Quat.smulQ (dt / 2) (Quat.mul (Quat.ofVec (ω i)) (q i)))))
    else q i
  , fun i => if 0 < inv_mass i then Vec3.add (v i) (Vec3.smul dt gravity) else v i
  , fun i => ω i )

/-- All index pairs `(a, b)` with `a < b < n`. -/
def allPairs (n : ℕ) : List (ℕ × ℕ) :=
  (List.range n).foldr
    (fun a acc =>
      (((List.range n).filter (fun b => Nat.blt a b)).map (fun b => (a, b))) ++ acc)
    []

/-- Modelled from the spec (section 4.2, Spatial Hash); the module
`physics/xpbd/broadphase.py` is not in the source tree.  The spec guarantees
only that every truly overlapping pair is reported and explicitly permits
false positives (they are filtered in the narrowphase), so the broadphase is
modelled as the conservative candidate set of all index pairs `a < b`.  The
body count `n` stands for the tensor's leading dimension; the remaining
arguments mirror the call signature in `engine.py`. -/
def uniform_spatial_hash (n : ℕ) (_x : ℕ → Vec3) (_shape_type : ℕ → ℕ)
    (_shape_params : ℕ → Vec3) : List (ℕ × ℕ) :=
  allPairs n

/-- Modelled from the spec (section 4.3): the combined friction coefficient is
computed deterministically from the two per-body coefficients; the spec
recommends the geometric mean, which is adopted here. -/
def combine_friction (a b : ℚ) : ℚ := ratSqrt (a * b)

/-- Sphere-sphere closest-point routine.  Modelled from the spec
(section 4.3): a contact is emitted when the centers are strictly closer than
the sum of the radii (zero overlap margin emits nothing); the normal points
from body `b` to body `a`, the depth is the overlap, and the contact point is
the midpoint of the two surface points along the normal. -/
def sphereContact (xa xb : Vec3) (ra rb μa μb compliance : ℚ) (ia ib : ℕ) :
    Option Contact :=
  let d := Vec3.sub xa xb
  let d2 := Vec3.normSq d
  let r := ra + rb
  if 0 < d2 ∧ d2 < r * r then
    let dist := ratSqrt d2
    let nrm := Vec3.smul (1 / dist) d
    some { ia := ia, ib := ib
         , point := Vec3.smul (1 / 2)
             (Vec3.add (Vec3.sub xa (Vec3.smul ra nrm)) (Vec3.add xb (Vec3.smul rb nrm)))
         , normal := nrm
         , depth := r - dist
         , friction := combine_friction μa μb
         , compliance := compliance }
  else none

/-- Modelled from the spec (section 4.3, Contact Generator); the module
`physics/xpbd/narrowphase.py` is not in the source tree.  Candidate pairs are
dispatched on the pair of shape kinds; only the sphere-sphere routine is
modelled here (the dispatch is extensible per the spec; pairs of other kinds
produce no contact in this model).  Contacts carry the configured compliance
verbatim and the geometric-mean combined friction.  The empty case (no
contacts) is valid. -/
def generate_contacts (x : ℕ → Vec3) (_q : ℕ → Quat) (pairs : List (ℕ × ℕ))
    (shape_type : ℕ → ℕ) (shape_params : ℕ → Vec3) (friction : ℕ → ℚ)
    (compliance : ℚ) : List Contact :=
  pairs.filterMap (fun p =>
    if shape_type p.1 = SPHERE ∧ shape_type p.2 = SPHERE then
      sphereContact (x p.1) (x p.2) (shape_params p.1).x (shape_params p.2).x
        (friction p.1) (friction p.2) compliance p.1 p.2
    else none)

/-- One Gauss-Seidel visit of one contact.  Modelled from the spec
(section 4.4, Position Solver); the module `physics/xpbd/solver.py` is not in
the source tree.  The current constraint value is the stored penetration
depth corrected by the relative displacement (from the solver's starting
positions `xInit`) along the contact normal; the effective compliance is
`compliance / dt^2`; the generalized inverse masses include the angular term
`(r x n)^T inv_inertia (r x n)` with the diagonal inverse inertia; the
accumulated multiplier is clamped to be non-negative, and the applied update
is the clamped increment (the sign convention is chosen so that a positive
multiplier pushes the bodies apart, which is what the spec's one-sidedness
sentence requires).  Immovable bodies receive zero correction: the positional
update is scaled by the inverse mass and the angular update vanishes with the
inverse inertia (a vanishing angular update leaves the orientation
untouched). -/
def solveContact (dt : ℚ) (inv_mass : ℕ → ℚ) (inv_inertia : ℕ → Vec3)
    (xInit : ℕ → Vec3) (c : Contact) (lam : ℚ) (x : ℕ → Vec3) (q : ℕ → Quat) :
    (ℕ → Vec3) × (ℕ → Quat) × ℚ :=
  let a := c.ia
  let b := c.ib
  let C := c.depth -
    Vec3.dot (Vec3.sub (Vec3.sub (x a) (xInit a)) (Vec3.sub (x b) (xInit b))) c.normal
  let alphaTilde := c.compliance / (dt * dt)
  let rA := Vec3.sub c.point (x a)
  let rB := Vec3.sub c.point (x b)
  let wA := inv_mass a + Vec3.dot (inv_inertia a) (Vec3.compSq (Vec3.cross rA c.normal))
  let wB := inv_mass b + Vec3.dot (inv_inertia b) (Vec3.compSq (Vec3.cross rB c.normal))
  let denom := wA + wB + alphaTilde
  if denom = 0 then (x, q, lam) else
  let lNew := max 0 (lam + (C - alphaTilde * lam) / denom)
  let dl := lNew - lam
  let x' := Function.update (Function.update x a
              (Vec3.add (x a) (Vec3.smul (dl * inv_mass a) c.normal))) b
              (Vec3.sub (x b) (Vec3.smul (dl * inv_mass b) c.normal))
  let wa := Vec3.compMul (inv_inertia a) (Vec3.cross rA (Vec3.smul dl c.normal))
  let wb := Vec3.compMul (inv_inertia b) (Vec3.cross rB (Vec3.smul dl c.normal))
  let qa := if wa = Vec3.zero then q a else
    Quat.normalize (Quat.addQ (q a) (Quat.smulQ (1 / 2) (Quat.mul (Quat.ofVec wa) (q a))))
  let qb := if wb = Vec3.zero then q b else
    Quat.normalize (Quat.subQ (q b) (Quat.smulQ (1 / 2) (Quat.mul (Quat.ofVec wb) (q b))))
  (x', Function.update (Function.update q a qa) b qb, lNew)

/-- One pass over the contacts in their fixed input order (Gauss-Seidel: each
correction is immediately visible to the following contacts); threads the
per-contact accumulated multipliers. -/
def solvePass (dt : ℚ) (inv_mass : ℕ → ℚ) (inv_inertia : ℕ → Vec3)
    (xInit : ℕ → Vec3) :
    List Contact → List ℚ → (ℕ → Vec3) → (ℕ → Quat) →
    (ℕ → Vec3) × (ℕ → Quat) × List ℚ
  | [], _, x, q => (x, q, [])
  | _ :: _, [], x, q => (x, q, [])
  | c :: cs, l :: ls, x, q =>
    let r := solveContact dt inv_mass inv_inertia xInit c l x q
    let rest := solvePass dt inv_mass inv_inertia xInit cs ls r.1 r.2.1
    (rest.1, rest.2.1, r.2.2 :: rest.2.2)

/-- Fixed iteration budget: the pass is repeated `iters` times
unconditionally, with no convergence check. -/
def solveIterate (dt : ℚ) (inv_mass : ℕ → ℚ) (inv_inertia : ℕ → Vec3)
    (xInit : ℕ → Vec3) (contacts : List Contact) :
    ℕ → (ℕ → Vec3) → (ℕ → Quat) → List ℚ →
    (ℕ → Vec3) × (ℕ → Quat) × List ℚ
  | 0, x, q, ls => (x, q, ls)
  | k + 1, x, q, ls =>
    let r := solvePass dt inv_mass inv_inertia xInit contacts ls x q
    solveIterate dt inv_mass inv_inertia xInit contacts k r.1 r.2.1 r.2.2

/-- Modelled from the spec (section 4.4): the full position solver, exposing
the per-contact accumulated Lagrange multipliers, which start at zero every
step (no warm starting). -/
def solveConstraintsFull (x : ℕ → Vec3) (q : ℕ → Quat) (contacts : List Contact)
    (inv_mass : ℕ → ℚ) (inv_inertia : ℕ → Vec3) (dt : ℚ) (iters : ℕ) :
    (ℕ → Vec3) × (ℕ → Quat) × List ℚ :=
  solveIterate dt inv_mass inv_inertia x contacts iters x q
    (List.replicate contacts.length 0)

/-- Modelled from the spec (section 4.4); the module `physics/xpbd/solver.py`
is not in the source tree.  As at the call site in `engine.py` line 18, only
the projected positions and orientations are returned: the accumulated
multipliers are internal to the solver and are not handed to the caller. -/
def solve_constraints (x : ℕ → Vec3) (q : ℕ → Quat) (contacts : List Contact)
    (inv_mass : ℕ → ℚ) (inv_inertia : ℕ → Vec3) (dt : ℚ) (iters : ℕ) :
    (ℕ → Vec3) × (ℕ → Quat) :=
  let r := solveConstraintsFull x q contacts inv_mass inv_inertia dt iters
  (r.1, r.2.1)

/-- Modelled from the spec (section 4.5, Velocity Reconciler); the module
`physics/xpbd/velocity_update.py` is not in the source tree.  The linear
velocity is recomputed as `(x_proj - x_old) / dt` and the angular velocity
from the orientation delta `q_proj * conj q_old` converted to an angular-rate
vector over `dt` with the shortest-arc sign (small-angle convention: twice
the vector part, negated when the real part is negative).  The spec's output
formulas are functions of the pose pairs alone; the predicted velocities are
accepted to mirror the call signature in `engine.py` but do not enter the
formulas. -/
def reconcile_velocities (x_proj : ℕ → Vec3) (q_proj : ℕ → Quat)
    (x_old : ℕ → Vec3) (q_old : ℕ → Quat) (_v_new _ω_new : ℕ → Vec3) (dt : ℚ) :
    (ℕ → Vec3) × (ℕ → Vec3) :=
  ( fun i => Vec3.smul (1 / dt) (Vec3.sub (x_proj i) (x_old i))
  , fun i =>
      let dq := Quat.mul (q_proj i) (Quat.conj (q_old i))
      Vec3.smul ((if dq.w < 0 then -2 else 2) / dt) ⟨dq.x, dq.y, dq.z⟩ )

/-- Restitution part of the velocity-level contact visit: if the bodies are
approaching along the contact normal, an impulse is applied so that the
post-impulse separating velocity is `-restitution` times the approaching
velocity this stage observes. -/
def applyRestitution (inv_mass : ℕ → ℚ) (restitution : ℚ) (c : Contact)
    (v : ℕ → Vec3) : ℕ → Vec3 :=
  let a := c.ia
  let b := c.ib
  let msum := inv_mass a + inv_mass b
  let vn := Vec3.dot (Vec3.sub (v a) (v b)) c.normal
  if vn < 0 ∧ msum ≠ 0 then
    let j := (-(1 + restitution) * vn) / msum
    Function.update (Function.update v a
      (Vec3.add (v a) (Vec3.smul (j * inv_mass a) c.normal))) b
      (Vec3.sub (v b) (Vec3.smul (j * inv_mass b) c.normal))
  else v

/-- Friction part of the velocity-level contact visit: a friction impulse
opposes the relative tangential velocity, with magnitude clamped to
`friction * lam / dt` (Coulomb cone bound built from the handed-in
accumulated normal impulse `lam`). -/
def applyFriction (inv_mass : ℕ → ℚ) (dt : ℚ) (c : Contact) (lam : ℚ)
    (v : ℕ → Vec3) : ℕ → Vec3 :=
  let a := c.ia
  let b := c.ib
  let msum := inv_mass a + inv_mass b
  let vrel := Vec3.sub (v a) (v b)
  let vt := Vec3.sub vrel (Vec3.smul (Vec3.dot vrel c.normal) c.normal)
  let vt2 := Vec3.normSq vt
  if vt2 ≠ 0 ∧ msum ≠ 0 then
    let speed := ratSqrt vt2
    let jt := min (speed / msum) (c.friction * lam / dt)
    let tHat := Vec3.smul (1 / speed) vt
    Function.update (Function.update v a
      (Vec3.sub (v a) (Vec3.smul (jt * inv_mass a) tHat))) b
      (Vec3.add (v b) (Vec3.smul (jt * inv_mass b) tHat))
  else v

/-- One velocity-level visit of one contact.  Modelled from the spec
(section 4.6, Velocity Solver); the module `physics/xpbd/velocity_solver.py`
is not in the source tree.  The relative velocity along the normal is
computed from the velocities this stage receives; if the bodies are
approaching, a restitution impulse is applied; then a friction impulse
opposes the relative tangential velocity, its magnitude clamped to
`friction * lambda / dt` with the per-contact `lambda` taken from the
accumulated-impulse buffer handed in by the caller.  Impulses are scaled by
each body's inverse mass, so immovable bodies are unaffected.  The solver
receives no positions (see the call site in `engine.py` line 23), so the
relative velocity is the linear relative velocity and no angular impulse can
be formed; the angular velocities pass through. -/
def solveVelContact (inv_mass : ℕ → ℚ) (_inv_inertia : ℕ → Vec3) (dt : ℚ)
    (restitution : ℚ) (c : Contact) (lam : ℚ) (v ω : ℕ → Vec3) :
    (ℕ → Vec3) × (ℕ → Vec3) :=
  (applyFriction inv_mass dt c lam (applyRestitution inv_mass restitution c v), ω)

/-- Modelled from the spec (section 4.6); one pass over the contacts is
sufficient at this stage (no iteration parameter).  The argument order
mirrors the call site in `engine.py` line 23. -/
def solve_velocities (v ω : ℕ → Vec3) (contacts : List Contact)
    (inv_mass : ℕ → ℚ) (inv_inertia : ℕ → Vec3) (dt : ℚ)
    (lambda_acc : List ℚ) (restitution : ℚ) : (ℕ → Vec3) × (ℕ → Vec3) :=
  match contacts, lambda_acc with
  | [], _ => (v, ω)
  | _ :: _, [] => (v, ω)
  | c :: cs, l :: ls =>
    let r := solveVelContact inv_mass inv_inertia dt restitution c l v ω
    solve_velocities r.1 r.2 cs inv_mass inv_inertia dt ls restitution

/-- Result of one physics step: the updated body store, embedding the 4-tuple
of tensors returned by `_physics_step_static`. -/
structure StepOut where
  x : ℕ → Vec3
  q : ℕ → Quat
  v : ℕ → Vec3
  omega : ℕ → Vec3

/-- Embedding of `_physics_step_static` (`src/physics/engine.py` lines
10-24): predict, broadphase on predicted positions, narrowphase, position
solve from the prediction, velocity reconciliation against the pre-step pose,
then the velocity solve.  As in the source (lines 20-22), the
accumulated-impulse buffer handed to the velocity solver is a freshly created
zero tensor of length `contacts.length` ("dummy lambda_acc"), not the
multipliers accumulated by the position solver.  `n` stands for the leading
tensor dimension (the body count). -/
def physics_step_static (n : ℕ) (x : ℕ → Vec3) (q : ℕ → Quat) (v ω : ℕ → Vec3)
    (inv_mass : ℕ → ℚ) (inv_inertia : ℕ → Vec3) (shape_type : ℕ → ℕ)
    (shape_params : ℕ → Vec3) (friction : ℕ → ℚ) (dt : ℚ) (gravity : Vec3)
    (restitution : ℚ) (solver_iterations : ℕ) (contact_compliance : ℚ) :
    StepOut :=
  let pr := predict_state x q v ω inv_mass inv_inertia gravity dt
  let candidate_pairs := uniform_spatial_hash n pr.1 shape_type shape_params
  let contacts := generate_contacts pr.1 pr.2.1 candidate_pairs shape_type
    shape_params friction contact_compliance
  let proj := solve_constraints pr.1 pr.2.1 contacts inv_mass inv_inertia dt
    solver_iterations
  let rec' := reconcile_velocities proj.1 proj.2 x q pr.2.2.1 pr.2.2.2 dt
  let lambda_acc := List.replicate contacts.length (0 : ℚ)
  let fin := solve_velocities rec'.1 rec'.2 contacts inv_mass inv_inertia dt
    lambda_acc restitution
  ⟨proj.1, proj.2, fin.1, fin.2⟩

/-- Embedding of `_n_step_simulation` (`src/physics/engine.py` lines 26-32):
the single-step function applied `num_steps` times sequentially with the same
parameters. -/
def n_step_simulation (n : ℕ) (x : ℕ → Vec3) (q : ℕ → Quat) (v ω : ℕ → Vec3)
    (inv_mass : ℕ → ℚ) (inv_inertia : ℕ → Vec3) (shape_type : ℕ → ℕ)
    (shape_params : ℕ → Vec3) (friction : ℕ → ℚ) (dt : ℚ) (gravity : Vec3)
    (num_steps : ℕ) (restitution : ℚ) (solver_iterations : ℕ)
    (contact_compliance : ℚ) : StepOut :=
  match num_steps with
  | 0 => ⟨x, q, v, ω⟩
  | k + 1 =>
    let r := physics_step_static n x q v ω inv_mass inv_inertia shape_type
      shape_params friction dt gravity restitution solver_iterations
      contact_compliance
    n_step_simulation n r.x r.q r.v r.omega inv_mass inv_inertia shape_type
      shape_params friction dt gravity k restitution solver_iterations
      contact_compliance

/-- Embedding of the `TensorPhysicsEngine` object state: the body-store
tensors, the immutable per-body parameters, and the configuration scalars.
`numBodies` models the leading dimension of the body tensors.  The `TinyJit`
wrappers cache compilation only and are semantically the identity, so they do
not appear. -/
structure TensorPhysicsEngine where
  numBodies : ℕ
  x : ℕ → Vec3
  q : ℕ → Quat
  v : ℕ → Vec3
  omega : ℕ → Vec3
  inv_mass : ℕ → ℚ
  inv_inertia : ℕ → Vec3
  shape_type : ℕ → ℕ
  shape_params : ℕ → Vec3
  friction : ℕ → ℚ
  gravity : Vec3
  dt : ℚ
  restitution : ℚ
  solver_iterations : ℕ
  contact_compliance : ℚ

/-- Error taxonomy of the spec (section 7).  The constructor in the source
never raises it. -/
inductive ConfigurationError where
  | mk : ConfigurationError
  deriving DecidableEq, Repr

/-- Embedding of `TensorPhysicsEngine.__init__` (`src/physics/engine.py`
lines 36-63): the supplied parallel arrays are converted and stored as they
are, the friction array defaults to `0.5` for every body when omitted, and
the configuration scalars are stored.  The body contains no validation of any
kind, so the result is always `ok`; the `Except` return type only expresses
where a `ConfigurationError` could be signalled.  Arrays are supplied as
lists (the tensors' row lists); reads beyond an array's length yield the
zero element, mirroring fixed-shape tensor storage. -/
def TensorPhysicsEngine.init (x : List Vec3) (q : List Quat) (v ω : List Vec3)
    (inv_mass : List ℚ) (inv_inertia : List Vec3) (shape_type : List ℕ)
    (shape_params : List Vec3) (friction : Option (List ℚ)) (gravity : Vec3)
    (dt : ℚ) (restitution : ℚ) (solver_iterations : ℕ)
    (contact_compliance : ℚ) : Except ConfigurationError TensorPhysicsEngine :=
  let fr := match friction with
    | none => List.replicate x.length ((1 : ℚ) / 2)
    | some f => f
  Except.ok
    { numBodies := x.length
    , x := fun i => x.getD i Vec3.zero
    , q := fun i => q.getD i ⟨1, 0, 0, 0⟩
    , v := fun i => v.getD i Vec3.zero
    , omega := fun i => ω.getD i Vec3.zero
    , inv_mass := fun i => inv_mass.getD i 0
    , inv_inertia := fun i => inv_inertia.getD i Vec3.zero
    , shape_type := fun i => shape_type.getD i 0
    , shape_params := fun i => shape_params.getD i Vec3.zero
    , friction := fun i => fr.getD i 0
    , gravity := gravity
    , dt := dt
    , restitution := restitution
    , solver_iterations := solver_iterations
    , contact_compliance := contact_compliance }

/-- Embedding of `TensorPhysicsEngine.step` (`src/physics/engine.py` lines
82-90): when a `dt` is supplied it becomes the engine's stored `dt` (the
source skips the assignment when it already equals the stored value, which
leaves the same state); the step then runs once with the stored `dt` and the
body store is overwritten with the result. -/
def TensorPhysicsEngine.step (e : TensorPhysicsEngine) (dt? : Option ℚ) :
    TensorPhysicsEngine :=
  let dt' := dt?.getD e.dt
  let r := physics_step_static e.numBodies e.x e.q e.v e.omega e.inv_mass
    e.inv_inertia e.shape_type e.shape_params e.friction dt' e.gravity
    e.restitution e.solver_iterations e.contact_compliance
  { e with x := r.x, q := r.q, v := r.v, omega := r.omega, dt := dt' }

/-- Embedding of `TensorPhysicsEngine.run_simulation` (`src/physics/engine.py`
lines 70-80): the n-step function is run on the current state with the stored
configuration and the body store is overwritten with the result. -/
def TensorPhysicsEngine.run_simulation (e : TensorPhysicsEngine)
    (num_steps : ℕ) : TensorPhysicsEngine :=
  let r := n_step_simulation e.numBodies e.x e.q e.v e.omega e.inv_mass
    e.inv_inertia e.shape_type e.shape_params e.friction e.dt e.gravity
    num_steps e.restitution e.solver_iterations e.contact_compliance
  { e with x := r.x, q := r.q, v := r.v, omega := r.omega }

/-- Embedding of `TensorPhysicsEngine.set_state` (`src/physics/engine.py`
lines 104-108): the four body-store arrays are replaced by the supplied ones;
nothing else is touched. -/
def TensorPhysicsEngine.set_state (e : TensorPhysicsEngine) (x : List Vec3)
    (q : List Quat) (v ω : List Vec3) : TensorPhysicsEngine :=
  { e with x := fun i => x.getD i Vec3.zero
         , q := fun i => q.getD i ⟨1, 0, 0, 0⟩
         , v := fun i => v.getD i Vec3.zero
         , omega := fun i => ω.getD i Vec3.zero }

/-- The body store of an engine, as a step result. -/
def bodyStore (e : TensorPhysicsEngine) : StepOut := ⟨e.x, e.q, e.v, e.omega⟩

/-- `n` sequential calls of `step` with no argument. -/
def stepN : ℕ → TensorPhysicsEngine → TensorPhysicsEngine
  | 0, e => e
  | k + 1, e => stepN k (e.step none)

/-- Concrete two-body scene with tangential relative motion at the contact:
two unit spheres, body 0 at the origin moving with velocity `(1, 0, 0)`,
body 1 resting at `(9/10, 3/5, 0)`; unit inverse masses, friction `1/2` on
both bodies, no gravity, `dt = 1/10`, restitution `1/2`, one solver
iteration, zero compliance.  All square roots taken along this scene's
evaluation are of perfect squares. -/
def tangentialScene : TensorPhysicsEngine :=
  { numBodies := 2
  , x := fun i => if i = 0 then ⟨0, 0, 0⟩ else ⟨9/10, 3/5, 0⟩
  , q := fun _ => ⟨1, 0, 0, 0⟩
  , v := fun i => if i = 0 then ⟨1, 0, 0⟩ else Vec3.zero
  , omega := fun _ => Vec3.zero
  , inv_mass := fun _ => 1
  , inv_inertia := fun _ => ⟨1, 1, 1⟩
  , shape_type := fun _ => SPHERE
  , shape_params := fun _ => ⟨1, 0, 0⟩
  , friction := fun _ => 1/2
  , gravity := Vec3.zero
  , dt := 1/10
  , restitution := 1/2
  , solver_iterations := 1
  , contact_compliance := 0 }

/-- The predictor output for `tangentialScene`. -/
def tangentialPred :=
  predict_state tangentialScene.x tangentialScene.q tangentialScene.v
    tangentialScene.omega tangentialScene.inv_mass tangentialScene.inv_inertia
    tangentialScene.gravity tangentialScene.dt

/-- The contacts generated in the step of `tangentialScene`. -/
def tangentialContacts : List Contact :=
  generate_contacts tangentialPred.1 tangentialPred.2.1
    (uniform_spatial_hash 2 tangentialPred.1 tangentialScene.shape_type
      tangentialScene.shape_params)
    tangentialScene.shape_type tangentialScene.shape_params
    tangentialScene.friction tangentialScene.contact_compliance

/-- Concrete two-body scene with a head-on approach: two unit spheres on the
y-axis, body 0 at the origin moving up at speed 1, body 1 at `(0, 3/2, 0)`
moving down at speed 1; unit inverse masses, friction `1/2`, no gravity,
`dt = 1/10`, restitution `1/2`, one solver iteration, zero compliance. -/
def headOnScene : TensorPhysicsEngine :=
  { numBodies := 2
  , x := fun i => if i = 0 then ⟨0, 0, 0⟩ else ⟨0, 3/2, 0⟩
  , q := fun _ => ⟨1, 0, 0, 0⟩
  , v := fun i => if i = 0 then ⟨0, 1, 0⟩ else ⟨0, -1, 0⟩
  , omega := fun _ => Vec3.zero
  , inv_mass := fun _ => 1
  , inv_inertia := fun _ => ⟨1, 1, 1⟩
  , shape_type := fun _ => SPHERE
  , shape_params := fun _ => ⟨1, 0, 0⟩
  , friction := fun _ => 1/2
  , gravity := Vec3.zero
  , dt := 1/10
  , restitution := 1/2
  , solver_iterations := 1
  , contact_compliance := 0 }

/-- The predictor output for `headOnScene`. -/
def headOnPred :=
  predict_state headOnScene.x headOnScene.q headOnScene.v headOnScene.omega
    headOnScene.inv_mass headOnScene.inv_inertia headOnScene.gravity
    headOnScene.dt

/-- The contacts generated in the step of `headOnScene`. -/
def headOnContacts : List Contact :=
  generate_contacts headOnPred.1 headOnPred.2.1
    (uniform_spatial_hash 2 headOnPred.1 headOnScene.shape_type
      headOnScene.shape_params)
    headOnScene.shape_type headOnScene.shape_params headOnScene.friction
    headOnScene.contact_compliance

/-- Single immovable body (inverse mass 0, inverse inertia 0) that carries a
nonzero linear velocity `(1, 0, 0)`. -/
def staticMovingScene : TensorPhysicsEngine :=
  { numBodies := 1
  , x := fun _ => ⟨0, 0, 0⟩
  , q := fun _ => ⟨1, 0, 0, 0⟩
  , v := fun _ => ⟨1, 0, 0⟩
  , omega := fun _ => Vec3.zero
  , inv_mass := fun _ => 0
  , inv_inertia := fun _ => Vec3.zero
  , shape_type := fun _ => SPHERE
  , shape_params := fun _ => ⟨1, 0, 0⟩
  , friction := fun _ => 1/2
  , gravity := ⟨0, -981/100, 0⟩
  , dt := 2/125
  , restitution := 1/10
  , solver_iterations := 8
  , contact_compliance := 1/100 }

/-- Single immovable body at rest (all velocities zero). -/
def staticRestScene : TensorPhysicsEngine :=
  { numBodies := 1
  , x := fun _ => ⟨0, 2, 0⟩
  , q := fun _ => ⟨1, 0, 0, 0⟩
  , v := fun _ => Vec3.zero
  , omega := fun _ => Vec3.zero
  , inv_mass := fun _ => 0
  , inv_inertia := fun _ => Vec3.zero
  , shape_type := fun _ => SPHERE
  , shape_params := fun _ => ⟨1, 0, 0⟩
  , friction := fun _ => 1/2
  , gravity := ⟨0, -981/100, 0⟩
  , dt := 2/125
  , restitution := 1/10
  , solver_iterations := 8
  , contact_compliance := 1/100 }

/-- Velocity field for the single-contact velocity-solver witness: body 0
moves down at speed 1, every other body is at rest. -/
def witnessVel : ℕ → Vec3 := fun i => if i = 0 then ⟨0, -1, 0⟩ else Vec3.zero

/-- Contact record for the single-contact velocity-solver witness: bodies 0
and 1, unit normal `(0, 1, 0)` pointing from body 1 to body 0. -/
def witnessContact : Contact :=
  { ia := 0, ib := 1, point := Vec3.zero, normal := ⟨0, 1, 0⟩
  , depth := 0, friction := 1/2, compliance := 0 }

theorem Vec3.add_zero_right (a : Vec3) : Vec3.add a Vec3.zero = a := by
  cases a
  simp [Vec3.add, Vec3.zero]

theorem Vec3.sub_zero_right (a : Vec3) : Vec3.sub a Vec3.zero = a := by
  cases a
  simp [Vec3.sub, Vec3.zero]

theorem Vec3.sub_self_eq (a : Vec3) : Vec3.sub a a = Vec3.zero := by
  cases a
  simp [Vec3.sub, Vec3.zero]

theorem Vec3.smul_zero_coef (a : Vec3) : Vec3.smul 0 a = Vec3.zero := by
  cases a
  simp [Vec3.smul, Vec3.zero]

theorem Vec3.smul_zero_vec (c : ℚ) : Vec3.smul c Vec3.zero = Vec3.zero := by
  simp [Vec3.smul, Vec3.zero]

theorem Vec3.compMul_zero_left (a : Vec3) : Vec3.compMul Vec3.zero a = Vec3.zero := by
  cases a
  simp [Vec3.compMul, Vec3.zero]

theorem Vec3.sub_dot (a b n : Vec3) :
    Vec3.dot (Vec3.sub a b) n = Vec3.dot a n - Vec3.dot b n := by
  cases a
  cases b
  cases n
  simp only [Vec3.sub, Vec3.dot]
  ring

theorem Vec3.add_dot (a b n : Vec3) :
    Vec3.dot (Vec3.add a b) n = Vec3.dot a n + Vec3.dot b n := by
  cases a
  cases b
  cases n
  simp only [Vec3.add, Vec3.dot]
  ring

theorem Vec3.smul_dot (c : ℚ) (a n : Vec3) :
    Vec3.dot (Vec3.smul c a) n = c * Vec3.dot a n := by
  cases a
  cases n
  simp only [Vec3.smul, Vec3.dot]
  ring

theorem Quat.mul_conj_self_vec (p : Quat) :
    (Quat.mul p (Quat.conj p)).x = 0 ∧ (Quat.mul p (Quat.conj p)).y = 0 ∧
    (Quat.mul p (Quat.conj p)).z = 0 := by
  cases p
  refine ⟨?_, ?_, ?_⟩ <;> (simp only [Quat.mul, Quat.conj]; ring)

theorem predict_static_x {inv_mass : ℕ → ℚ} {i : ℕ} (hm : inv_mass i = 0) :
    ∀ (x : ℕ → Vec3) (q : ℕ → Quat) (v ω : ℕ → Vec3) (iI : ℕ → Vec3)
      (g : Vec3) (dt : ℚ),
    (predict_state x q v ω inv_mass iI g dt).1 i = x i := by
  intro x q v ω iI g dt
  simp [predict_state, hm]

theorem predict_static_q {inv_mass : ℕ → ℚ} {i : ℕ} (hm : inv_mass i = 0) :
    ∀ (x : ℕ → Vec3) (q : ℕ → Quat) (v ω : ℕ → Vec3) (iI : ℕ → Vec3)
      (g : Vec3) (dt : ℚ),
    (predict_state x q v ω inv_mass iI g dt).2.1 i = q i := by
  intro x q v ω iI g dt
  simp [predict_state, hm]

theorem solveContact_static {inv_mass : ℕ → ℚ} {inv_inertia : ℕ → Vec3}
    {i : ℕ} (hm : inv_mass i = 0) (hI : inv_inertia i = Vec3.zero) :
    ∀ (dt : ℚ) (x0 : ℕ → Vec3) (c : Contact) (l : ℚ) (x : ℕ → Vec3)
      (q : ℕ → Quat),
    (solveContact dt inv_mass inv_inertia x0 c l x q).1 i = x i ∧
    (solveContact dt inv_mass inv_inertia x0 c l x q).2.1 i = q i := by
  intro dt x0 c l x q
  refine ⟨?_, ?_⟩
  · simp only [solveContact]
    split
    · rfl
    · by_cases hb : i = c.ib
      · subst hb
        simp [Function.update_same, hm, Vec3.smul_zero_coef, Vec3.sub_zero_right]
      · by_cases ha : i = c.ia
        · subst ha
          simp [Function.update_noteq hb, Function.update_same, hm,
            Vec3.smul_zero_coef, Vec3.add_zero_right]
        · simp [Function.update_noteq hb, Function.update_noteq ha]
  · simp only [solveContact]
    split
    · rfl
    · by_cases hb : i = c.ib
      · subst hb
        simp [Function.update_same, hI, Vec3.compMul_zero_left]
      · by_cases ha : i = c.ia
        · subst ha
          simp [Function.update_noteq hb, Function.update_same, hI,
            Vec3.compMul_zero_left]
        · simp [Function.update_noteq hb, Function.update_noteq ha]

theorem solvePass_static {inv_mass : ℕ → ℚ} {inv_inertia : ℕ → Vec3} {i : ℕ}
    (hm : inv_mass i = 0) (hI : inv_inertia i = Vec3.zero) :
    ∀ (cs : List Contact) (ls : List ℚ) (dt : ℚ) (x0 x : ℕ → Vec3)
      (q : ℕ → Quat),
    (solvePass dt inv_mass inv_inertia x0 cs ls x q).1 i = x i ∧
    (solvePass dt inv_mass inv_inertia x0 cs ls x q).2.1 i = q i := by
  intro cs
  induction cs with
  | nil => intro ls dt x0 x q; exact ⟨rfl, rfl⟩
  | cons c cs ih =>
    intro ls dt x0 x q
    cases ls with
    | nil => exact ⟨rfl, rfl⟩
    | cons l ls =>
      have h1 := solveContact_static hm hI dt x0 c l x q
      have h2 := ih ls dt x0 (solveContact dt inv_mass inv_inertia x0 c l x q).1
        (solveContact dt inv_mass inv_inertia x0 c l x q).2.1
      exact ⟨h2.1.trans h1.1, h2.2.trans h1.2⟩

theorem solveIterate_static {inv_mass : ℕ → ℚ} {inv_inertia : ℕ → Vec3} {i : ℕ}
    (hm : inv_mass i = 0) (hI : inv_inertia i = Vec3.zero) :
    ∀ (k : ℕ) (cs : List Contact) (ls : List ℚ) (dt : ℚ) (x0 x : ℕ → Vec3)
      (q : ℕ → Quat),
    (solveIterate dt inv_mass inv_inertia x0 cs k x q ls).1 i = x i ∧
    (solveIterate dt inv_mass inv_inertia x0 cs k x q ls).2.1 i = q i := by
  intro k
  induction k with
  | zero => intro cs ls dt x0 x q; exact ⟨rfl, rfl⟩
  | succ k ih =>
    intro cs ls dt x0 x q
    have h1 := solvePass_static hm hI cs ls dt x0 x q
    have h2 := ih cs (solvePass dt inv_mass inv_inertia x0 cs ls x q).2.2 dt x0
      (solvePass dt inv_mass inv_inertia x0 cs ls x q).1
      (solvePass dt inv_mass inv_inertia x0 cs ls x q).2.1
    exact ⟨h2.1.trans h1.1, h2.2.trans h1.2⟩

theorem solve_constraints_static_x {inv_mass : ℕ → ℚ} {inv_inertia : ℕ → Vec3}
    {i : ℕ} (hm : inv_mass i = 0) (hI : inv_inertia i = Vec3.zero) :
    ∀ (x : ℕ → Vec3) (q : ℕ → Quat) (cs : List Contact) (dt : ℚ) (iters : ℕ),
    (solve_constraints x q cs inv_mass inv_inertia dt iters).1 i = x i := by
  intro x q cs dt iters
  exact (solveIterate_static hm hI iters cs (List.replicate cs.length 0) dt x x q).1

theorem solve_constraints_static_q {inv_mass : ℕ → ℚ} {inv_inertia : ℕ → Vec3}
    {i : ℕ} (hm : inv_mass i = 0) (hI : inv_inertia i = Vec3.zero) :
    ∀ (x : ℕ → Vec3) (q : ℕ → Quat) (cs : List Contact) (dt : ℚ) (iters : ℕ),
    (solve_constraints x q cs inv_mass inv_inertia dt iters).2 i = q i := by
  intro x q cs dt iters
  exact (solveIterate_static hm hI iters cs (List.replicate cs.length 0) dt x x q).2

theorem applyRestitution_static {inv_mass : ℕ → ℚ} {i : ℕ} (hm : inv_mass i = 0) :
    ∀ (e : ℚ) (c : Contact) (v : ℕ → Vec3),
    applyRestitution inv_mass e c v i = v i := by
  intro e c v
  simp only [applyRestitution]
  split
  · by_cases hb : i = c.ib
    · subst hb
      simp [Function.update_same, hm, Vec3.smul_zero_coef, Vec3.sub_zero_right]
    · by_cases ha : i = c.ia
      · subst ha
        simp [Function.update_noteq hb, Function.update_same, hm,
          Vec3.smul_zero_coef, Vec3.add_zero_right]
      · simp [Function.update_noteq hb, Function.update_noteq ha]
  · rfl

theorem applyFriction_static {inv_mass : ℕ → ℚ} {i : ℕ} (hm : inv_mass i = 0) :
    ∀ (dt : ℚ) (c : Contact) (lam : ℚ) (v : ℕ → Vec3),
    applyFriction inv_mass dt c lam v i = v i := by
  intro dt c lam v
  simp only [applyFriction]
  split
  · by_cases hb : i = c.ib
    · subst hb
      simp [Function.update_same, hm, Vec3.smul_zero_coef, Vec3.add_zero_right]
    · by_cases ha : i = c.ia
      · subst ha
        simp [Function.update_noteq hb, Function.update_same, hm,
          Vec3.smul_zero_coef, Vec3.sub_zero_right]
      · simp [Function.update_noteq hb, Function.update_noteq ha]
  · rfl

theorem solve_velocities_omega :
    ∀ (cs : List Contact) (ls : List ℚ) (v ω : ℕ → Vec3) (inv_mass : ℕ → ℚ)
      (iI : ℕ → Vec3) (dt e : ℚ),
    (solve_velocities v ω cs inv_mass iI dt ls e).2 = ω := by
  intro cs
  induction cs with
  | nil => intro ls v ω im iI dt e; cases ls <;> rfl
  | cons c cs ih =>
    intro ls v ω im iI dt e
    cases ls with
    | nil => rfl
    | cons l ls => exact ih ls _ ω im iI dt e

theorem solve_velocities_static {inv_mass : ℕ → ℚ} {i : ℕ} (hm : inv_mass i = 0) :
    ∀ (cs : List Contact) (ls : List ℚ) (v ω : ℕ → Vec3) (iI : ℕ → Vec3)
      (dt e : ℚ),
    (solve_velocities v ω cs inv_mass iI dt ls e).1 i = v i := by
  intro cs
  induction cs with
  | nil => intro ls v ω iI dt e; cases ls <;> rfl
  | cons c cs ih =>
    intro ls v ω iI dt e
    cases ls with
    | nil => rfl
    | cons l ls =>
      have h2 := ih ls (applyFriction inv_mass dt c l (applyRestitution inv_mass e c v)) ω iI dt e
      have h1 : applyFriction inv_mass dt c l (applyRestitution inv_mass e c v) i = v i :=
        (applyFriction_static hm dt c l _).trans (applyRestitution_static hm e c v)
      exact h2.trans h1

theorem physics_step_static_immovable {inv_mass : ℕ → ℚ} {inv_inertia : ℕ → Vec3}
    {i : ℕ} (hm : inv_mass i = 0) (hI : inv_inertia i = Vec3.zero) :
    ∀ (n : ℕ) (x : ℕ → Vec3) (q : ℕ → Quat) (v ω : ℕ → Vec3)
      (st : ℕ → ℕ) (sp : ℕ → Vec3) (fr : ℕ → ℚ) (dt : ℚ) (g : Vec3)
      (e : ℚ) (iters : ℕ) (comp : ℚ),
    (physics_step_static n x q v ω inv_mass inv_inertia st sp fr dt g e iters comp).x i = x i ∧
    (physics_step_static n x q v ω inv_mass inv_inertia st sp fr dt g e iters comp).q i = q i ∧
    (physics_step_static n x q v ω inv_mass inv_inertia st sp fr dt g e iters comp).v i = Vec3.zero ∧
    (physics_step_static n x q v ω inv_mass inv_inertia st sp fr dt g e iters comp).omega i = Vec3.zero := by
  intro n x q v ω st sp fr dt g e iters comp
  simp only [physics_step_static]
  refine ⟨?_, ?_, ?_, ?_⟩
  · rw [solve_constraints_static_x hm hI, predict_static_x hm]
  · rw [solve_constraints_static_q hm hI, predict_static_q hm]
  · rw [solve_velocities_static hm]
    simp only [reconcile_velocities]
    rw [solve_constraints_static_x hm hI, predict_static_x hm, Vec3.sub_self_eq,
      Vec3.smul_zero_vec]
  · rw [solve_velocities_omega]
    simp only [reconcile_velocities]
    rw [solve_constraints_static_q hm hI, predict_static_q hm]
    rcases Quat.mul_conj_self_vec (q i) with ⟨h1, h2, h3⟩
    rw [h1, h2, h3]
    exact Vec3.smul_zero_vec _

theorem dot_sub_impulse (va vb t n : Vec3) (ca cb : ℚ)
    (ht : Vec3.dot t n = 0) :
    Vec3.dot (Vec3.sub (Vec3.sub va (Vec3.smul ca t))
      (Vec3.add vb (Vec3.smul cb t))) n = Vec3.dot (Vec3.sub va vb) n := by
  cases va
  cases vb
  cases t
  cases n
  simp only [Vec3.sub, Vec3.add, Vec3.smul, Vec3.dot] at ht ⊢
  linear_combination (-ca - cb) * ht

theorem dot_add_impulse (va vb n : Vec3) (j ja jb : ℚ)
    (hn : Vec3.dot n n = 1) :
    Vec3.dot (Vec3.sub (Vec3.add va (Vec3.smul (j * ja) n))
      (Vec3.sub vb (Vec3.smul (j * jb) n))) n
      = Vec3.dot (Vec3.sub va vb) n + j * (ja + jb) := by
  cases va
  cases vb
  cases n
  simp only [Vec3.sub, Vec3.add, Vec3.smul, Vec3.dot] at hn ⊢
  linear_combination (j * ja + j * jb) * hn

theorem applyRestitution_normal_vel {inv_mass : ℕ → ℚ} (e : ℚ) (c : Contact)
    (v : ℕ → Vec3) (hab : c.ia ≠ c.ib)
    (hn : Vec3.dot c.normal c.normal = 1)
    (hm : inv_mass c.ia + inv_mass c.ib ≠ 0)
    (happ : Vec3.dot (Vec3.sub (v c.ia) (v c.ib)) c.normal < 0) :
    Vec3.dot (Vec3.sub (applyRestitution inv_mass e c v c.ia)
      (applyRestitution inv_mass e c v c.ib)) c.normal
      = -e * Vec3.dot (Vec3.sub (v c.ia) (v c.ib)) c.normal := by
  simp only [applyRestitution]
  split
  next hcond =>
    rw [Function.update_noteq hab, Function.update_same, Function.update_same,
      dot_add_impulse _ _ _ _ _ _ hn, div_mul_cancel₀ _ hm]
    ring
  next hcond => exact absurd ⟨happ, hm⟩ hcond

theorem applyFriction_normal_vel {inv_mass : ℕ → ℚ} (dt : ℚ) (c : Contact)
    (lam : ℚ) (v : ℕ → Vec3) (hab : c.ia ≠ c.ib)
    (hn : Vec3.dot c.normal c.normal = 1) :
    Vec3.dot (Vec3.sub (applyFriction inv_mass dt c lam v c.ia)
      (applyFriction inv_mass dt c lam v c.ib)) c.normal
      = Vec3.dot (Vec3.sub (v c.ia) (v c.ib)) c.normal := by
  simp only [applyFriction]
  split
  next hcond =>
    rw [Function.update_noteq hab, Function.update_same, Function.update_same]
    have h0 : Vec3.dot (Vec3.sub (Vec3.sub (v c.ia) (v c.ib))
        (Vec3.smul (Vec3.dot (Vec3.sub (v c.ia) (v c.ib)) c.normal) c.normal))
        c.normal = 0 := by
      rw [Vec3.sub_dot, Vec3.smul_dot, hn]
      ring
    exact dot_sub_impulse _ _ _ _ _ _ (by rw [Vec3.smul_dot, h0, mul_zero])
  next hcond => rfl

/-- C3: for every initial body-store state and every `n ≥ 0`, `run_simulation n`
produces exactly the same engine state (in particular the same position,
orientation, linear velocity and angular velocity) as `n` sequential `step`
calls with the configured `dt` and parameters. -/
theorem C3_run_simulation_eq_sequential_steps :
    ∀ (n : ℕ) (e : TensorPhysicsEngine), e.run_simulation n = stepN n e := by
  intro n
  induction n with
  | zero => intro e; rfl
  | succ k ih =>
    intro e
    have h1 : e.run_simulation (k + 1) = (e.step none).run_simulation k := rfl
    rw [h1, ih]
    rfl

/-- C10: `run_simulation 0` is an identity on the engine state; in particular
position, orientation, linear velocity and angular velocity are left equal to
their values before the call. -/
theorem C10_run_zero_identity (e : TensorPhysicsEngine) :
    e.run_simulation 0 = e := rfl

/-- C5: `step (some d)` advances exactly one time step, computed by a single
application of the step function with the supplied `d`; `step none` advances
one step with the engine's configured `dt`; in both cases the body store is
overwritten with that single step's output. -/
theorem C5_step_semantics (e : TensorPhysicsEngine) (d : ℚ) :
    bodyStore (e.step (some d)) =
      physics_step_static e.numBodies e.x e.q e.v e.omega e.inv_mass
        e.inv_inertia e.shape_type e.shape_params e.friction d e.gravity
        e.restitution e.solver_iterations e.contact_compliance ∧
    bodyStore (e.step none) =
      physics_step_static e.numBodies e.x e.q e.v e.omega e.inv_mass
        e.inv_inertia e.shape_type e.shape_params e.friction e.dt e.gravity
        e.restitution e.solver_iterations e.contact_compliance :=
  ⟨rfl, rfl⟩

/-- C7: `set_state` and `step` (and `run_simulation`) leave the inverse mass,
inverse inertia, shape kind, shape parameters and friction untouched: these
are immutable after construction. -/
theorem C7_immutable_parameters (e : TensorPhysicsEngine) (xs : List Vec3)
    (qs : List Quat) (vs ωs : List Vec3) (dt? : Option ℚ) (n : ℕ) :
    ((e.set_state xs qs vs ωs).inv_mass = e.inv_mass ∧
     (e.set_state xs qs vs ωs).inv_inertia = e.inv_inertia ∧
     (e.set_state xs qs vs ωs).shape_type = e.shape_type ∧
     (e.set_state xs qs vs ωs).shape_params = e.shape_params ∧
     (e.set_state xs qs vs ωs).friction = e.friction) ∧
    ((e.step dt?).inv_mass = e.inv_mass ∧
     (e.step dt?).inv_inertia = e.inv_inertia ∧
     (e.step dt?).shape_type = e.shape_type ∧
     (e.step dt?).shape_params = e.shape_params ∧
     (e.step dt?).friction = e.friction) ∧
    ((e.run_simulation n).inv_mass = e.inv_mass ∧
     (e.run_simulation n).inv_inertia = e.inv_inertia ∧
     (e.run_simulation n).shape_type = e.shape_type ∧
     (e.run_simulation n).shape_params = e.shape_params ∧
     (e.run_simulation n).friction = e.friction) :=
  ⟨⟨rfl, rfl, rfl, rfl, rfl⟩, ⟨rfl, rfl, rfl, rfl, rfl⟩,
   ⟨rfl, rfl, rfl, rfl, rfl⟩⟩

/-- C9: supplying a `dt` different from the stored one permanently overwrites
the engine's stored `dt`: the stored `dt` becomes `d`, a subsequent `step`
without an argument behaves exactly like `step (some d)`, and a subsequent
`run_simulation n` runs the n-step function with `d`, not with the
construction-time `dt`. -/
theorem C9_dt_overwrite (e : TensorPhysicsEngine) (d : ℚ) (n : ℕ)
    (h : d ≠ e.dt) :
    (e.step (some d)).dt = d ∧
    (e.step (some d)).step none = (e.step (some d)).step (some d) ∧
    bodyStore ((e.step (some d)).run_simulation n) =
      n_step_simulation (e.step (some d)).numBodies (e.step (some d)).x
        (e.step (some d)).q (e.step (some d)).v (e.step (some d)).omega
        (e.step (some d)).inv_mass (e.step (some d)).inv_inertia
        (e.step (some d)).shape_type (e.step (some d)).shape_params
        (e.step (some d)).friction d (e.step (some d)).gravity n
        (e.step (some d)).restitution (e.step (some d)).solver_iterations
        (e.step (some d)).contact_compliance :=
  ⟨rfl, rfl, rfl⟩

/-- C9 witness: at a concrete engine with stored `dt = 2/125`, stepping with
`dt = 1/100` overwrites the stored `dt`. -/
theorem C9_dt_overwrite_witness :
    (staticRestScene.step (some (1/100))).dt = 1/100 :=
  (C9_dt_overwrite staticRestScene (1/100) 1 (by with_unfolding_all decide)).1

/-- C2 counterexample: the constructor accepts parallel arrays of disagreeing
lengths (here two positions but a single entry in every other array) and
still succeeds, instead of failing with a `ConfigurationError` as the claim
requires. -/
theorem C2_counterexample :
    (∃ eng, TensorPhysicsEngine.init [⟨0, 0, 0⟩, ⟨0, 1, 0⟩] [⟨1, 0, 0, 0⟩]
      [Vec3.zero] [Vec3.zero] [1] [⟨1, 1, 1⟩] [SPHERE] [⟨1, 0, 0⟩] none
      ⟨0, -981/100, 0⟩ (2/125) (1/10) 8 (1/100) = Except.ok eng) ∧
    [(⟨0, 0, 0⟩ : Vec3), ⟨0, 1, 0⟩].length ≠ [(1 : ℚ)].length :=
  ⟨⟨_, rfl⟩, by decide⟩

/-- C2 amended: the constructor performs no validation at all: whatever the
array lengths and shape parameters, it always returns an engine and never
raises a `ConfigurationError`. -/
theorem C2_amended_construct_never_fails (x : List Vec3) (q : List Quat)
    (v ω : List Vec3) (im : List ℚ) (iI : List Vec3) (st : List ℕ)
    (sp : List Vec3) (fr : Option (List ℚ)) (g : Vec3) (dt e : ℚ) (it : ℕ)
    (cc : ℚ) :
    ∃ eng, TensorPhysicsEngine.init x q v ω im iI st sp fr g dt e it cc
      = Except.ok eng :=
  ⟨_, rfl⟩

set_option maxRecDepth 100000 in
set_option maxHeartbeats 1000000 in
/-- C1: evidence that the claim describes intended behaviour the code does
not implement.  In the step of `tangentialScene` the Position Solver
accumulates the multiplier `1/2` for the single contact, but (per
`engine.py` lines 20-22) the buffer handed to the Velocity Solver is the
freshly zeroed `List.replicate contacts.length 0 = [0]`.  Consequently the
friction clamp bound actually used is `(1/2) * 0 / dt = 0` and the step
leaves the reconciled velocities untouched, with a nonzero relative
tangential velocity at the contact, even though the claim's bound
`friction * lambda / dt = (1/2) * (1/2) / (1/10) = 5/2` would allow an
impulse arresting it. -/
theorem C1_friction_receives_dummy_lambda :
    (solveConstraintsFull tangentialPred.1 tangentialPred.2.1 tangentialContacts
      tangentialScene.inv_mass tangentialScene.inv_inertia tangentialScene.dt
      tangentialScene.solver_iterations).2.2 = [1/2] ∧
    List.replicate tangentialContacts.length (0 : ℚ) = [0] ∧
    (tangentialScene.step none).v 0 = ⟨-3, -3, 0⟩ ∧
    (tangentialScene.step none).v 1 = ⟨4, 3, 0⟩ ∧
    tangentialContacts = [⟨0, 1, ⟨1/2, 3/10, 0⟩, ⟨-4/5, -3/5, 0⟩, 1, 1/2, 0⟩] ∧
    Vec3.sub (Vec3.sub ((tangentialScene.step none).v 0)
        ((tangentialScene.step none).v 1))
      (Vec3.smul (Vec3.dot (Vec3.sub ((tangentialScene.step none).v 0)
        ((tangentialScene.step none).v 1)) ⟨-4/5, -3/5, 0⟩) ⟨-4/5, -3/5, 0⟩)
      = ⟨9/25, -12/25, 0⟩ ∧
    (⟨9/25, -12/25, 0⟩ : Vec3) ≠ Vec3.zero ∧
    (1/2 : ℚ) * (1/2) / (1/10) = 5/2 := by
  with_unfolding_all decide

set_option maxRecDepth 100000 in
set_option maxHeartbeats 1000000 in
/-- C4 counterexample: in `headOnScene` the bodies approach with pre-solve
(predictor) normal velocity `-2` at the single generated contact (normal
`(0, -1, 0)`), and the engine's restitution is `1/2`, so the claim predicts a
post-impulse separating velocity of `-(1/2) * (-2) = 1`; the step actually
produces separating velocity `5` (the Velocity Solver only ever sees the
reconciled velocities, which already separate at `5` after the position
projection, so it applies no restitution impulse at all). -/
theorem C4_counterexample :
    headOnContacts = [⟨0, 1, ⟨0, 3/4, 0⟩, ⟨0, -1, 0⟩, 7/10, 1/2, 0⟩] ∧
    Vec3.dot (Vec3.sub (headOnPred.2.2.1 0) (headOnPred.2.2.1 1)) ⟨0, -1, 0⟩
      = -2 ∧
    ((-2 : ℚ) < 0) ∧
    Vec3.dot (Vec3.sub ((headOnScene.step none).v 0)
      ((headOnScene.step none).v 1)) ⟨0, -1, 0⟩ = 5 ∧
    ¬((5 : ℚ) = -headOnScene.restitution * (-2)) := by
  with_unfolding_all decide

/-- C4 amended: the restitution impulse is sized from the approaching
velocity as measured on the velocities the Velocity Solver actually receives
(the reconciled, post-Position-Solver velocities; the predictor's pre-solve
velocities are not passed to it): for a contact between distinct bodies with
unit normal and positive combined inverse mass whose received normal
velocity is approaching, the post-impulse separating velocity equals
`-restitution` times that received approaching velocity. -/
theorem C4_amended_restitution_from_reconciled (v ω : ℕ → Vec3)
    (inv_mass : ℕ → ℚ) (iI : ℕ → Vec3) (dt e lam : ℚ) (c : Contact)
    (hab : c.ia ≠ c.ib) (hn : Vec3.dot c.normal c.normal = 1)
    (hm : inv_mass c.ia + inv_mass c.ib ≠ 0)
    (happ : Vec3.dot (Vec3.sub (v c.ia) (v c.ib)) c.normal < 0) :
    Vec3.dot (Vec3.sub ((solve_velocities v ω [c] inv_mass iI dt [lam] e).1 c.ia)
      ((solve_velocities v ω [c] inv_mass iI dt [lam] e).1 c.ib)) c.normal
      = -e * Vec3.dot (Vec3.sub (v c.ia) (v c.ib)) c.normal := by
  simp only [solve_velocities, solveVelContact]
  rw [applyFriction_normal_vel dt c lam _ hab hn,
    applyRestitution_normal_vel e c v hab hn hm happ]

/-- C4 amended, witness: a concrete single contact with approaching received
velocity `-1` and restitution `1/2` yields post-impulse separating velocity
`-(1/2) * (-1) = 1/2`. -/
theorem C4_amended_restitution_from_reconciled_witness :
    Vec3.dot (Vec3.sub ((solve_velocities witnessVel (fun _ => Vec3.zero)
        [witnessContact] (fun _ => 1) (fun _ => ⟨1, 1, 1⟩) 1 [0] (1/2)).1
        witnessContact.ia)
      ((solve_velocities witnessVel (fun _ => Vec3.zero) [witnessContact]
        (fun _ => 1) (fun _ => ⟨1, 1, 1⟩) 1 [0] (1/2)).1 witnessContact.ib))
      witnessContact.normal
      = -(1/2) * Vec3.dot (Vec3.sub (witnessVel witnessContact.ia)
          (witnessVel witnessContact.ib)) witnessContact.normal :=
  C4_amended_restitution_from_reconciled witnessVel (fun _ => Vec3.zero)
    (fun _ => 1) (fun _ => ⟨1, 1, 1⟩) 1 (1/2) 0 witnessContact
    (by decide) (by with_unfolding_all decide) (by with_unfolding_all decide)
    (by with_unfolding_all decide)

set_option maxRecDepth 100000 in
set_option maxHeartbeats 1000000 in
/-- C6 counterexample: an immovable body (inverse mass 0, inverse inertia 0)
carrying the nonzero velocity `(1, 0, 0)` keeps its position and orientation
across a step, but its linear velocity is overwritten with `0` by the
Velocity Reconciler (`(x_proj - x_old)/dt` with zero position change), so it
is not bit-identical as the claim requires. -/
theorem C6_counterexample :
    staticMovingScene.inv_mass 0 = 0 ∧
    staticMovingScene.inv_inertia 0 = Vec3.zero ∧
    (staticMovingScene.step none).x 0 = staticMovingScene.x 0 ∧
    (staticMovingScene.step none).q 0 = staticMovingScene.q 0 ∧
    (staticMovingScene.step none).v 0 = Vec3.zero ∧
    staticMovingScene.v 0 = ⟨1, 0, 0⟩ ∧
    (staticMovingScene.step none).v 0 ≠ staticMovingScene.v 0 := by
  with_unfolding_all decide

/-- C6 amended: for every body with inverse mass 0 and inverse inertia 0,
position and orientation are exactly preserved by any `step` (no pipeline
stage moves an immovable body), and its linear and angular velocities are
rewritten by the Velocity Reconciler to the rates implied by its zero pose
change, i.e. to zero — hence all four body-store components are bit-identical
precisely when its velocities are already zero, as assumed here. -/
theorem C6_amended_immovable_frame (e : TensorPhysicsEngine) (dt? : Option ℚ)
    (i : ℕ) (hm : e.inv_mass i = 0) (hI : e.inv_inertia i = Vec3.zero)
    (hv : e.v i = Vec3.zero) (hw : e.omega i = Vec3.zero) :
    (e.step dt?).x i = e.x i ∧ (e.step dt?).q i = e.q i ∧
    (e.step dt?).v i = e.v i ∧ (e.step dt?).omega i = e.omega i := by
  have h := physics_step_static_immovable hm hI e.numBodies e.x e.q e.v e.omega
    e.shape_type e.shape_params e.friction (dt?.getD e.dt) e.gravity
    e.restitution e.solver_iterations e.contact_compliance
  refine ⟨h.1, h.2.1, ?_, ?_⟩
  · rw [hv]
    exact h.2.2.1
  · rw [hw]
    exact h.2.2.2

/-- C6 amended, witness: a concrete immovable body at rest is bit-identical
across a step in all four body-store components. -/
theorem C6_amended_immovable_frame_witness :
    (staticRestScene.step none).x 0 = staticRestScene.x 0 ∧
    (staticRestScene.step none).q 0 = staticRestScene.q 0 ∧
    (staticRestScene.step none).v 0 = staticRestScene.v 0 ∧
    (staticRestScene.step none).omega 0 = staticRestScene.omega 0 :=
  C6_amended_immovable_frame staticRestScene none 0 rfl rfl rfl rfl

/-- C8: the step pipeline is a pure function of the body store and the
configuration: two engines whose body stores and configurations agree
componentwise produce identical trajectories under both repeated `step` and
`run_simulation`, for every step count. -/
theorem C8_determinism (e1 e2 : TensorPhysicsEngine)
    (hnb : e1.numBodies = e2.numBodies)
    (hx : ∀ i, e1.x i = e2.x i) (hq : ∀ i, e1.q i = e2.q i)
    (hv : ∀ i, e1.v i = e2.v i) (hw : ∀ i, e1.omega i = e2.omega i)
    (him : ∀ i, e1.inv_mass i = e2.inv_mass i)
    (hiI : ∀ i, e1.inv_inertia i = e2.inv_inertia i)
    (hst : ∀ i, e1.shape_type i = e2.shape_type i)
    (hsp : ∀ i, e1.shape_params i = e2.shape_params i)
    (hfr : ∀ i, e1.friction i = e2.friction i)
    (hg : e1.gravity = e2.gravity) (hdt : e1.dt = e2.dt)
    (hre : e1.restitution = e2.restitution)
    (hit : e1.solver_iterations = e2.solver_iterations)
    (hcc : e1.contact_compliance = e2.contact_compliance) :
    ∀ k, stepN k e1 = stepN k e2 ∧
      e1.run_simulation k = e2.run_simulation k := by
  have hex : e1 = e2 := by
    cases e1
    cases e2
    congr 1
    all_goals first
      | assumption
      | exact funext hx
      | exact funext hq
      | exact funext hv
      | exact funext hw
      | exact funext him
      | exact funext hiI
      | exact funext hst
      | exact funext hsp
      | exact funext hfr
  subst hex
  exact fun k => ⟨rfl, rfl⟩

/-- C8 witness: the theorem applied to a concrete engine paired with itself,
at step count 2. -/
theorem C8_determinism_witness :
    stepN 2 staticRestScene = stepN 2 staticRestScene ∧
    staticRestScene.run_simulation 2 = staticRestScene.run_simulation 2 :=
  (C8_determinism staticRestScene staticRestScene rfl (fun _ix => rfl)
    (fun _iq => rfl) (fun _iv => rfl) (fun _iw => rfl) (fun _im => rfl)
    (fun _iI => rfl) (fun _ist => rfl) (fun _isp => rfl) (fun _ifr => rfl)
    rfl rfl rfl rfl rfl) 2
